import Mathlib

/-!
Verification of the field-coverage reconciliation logic of
`verify_field_mapping.py`.

The script holds two hardcoded tables (`DB_FIELDS`, `FRONTEND_FIELDS`)
mapping each filing type to a set of field-name strings, then for every
filing type computes

  missing_in_frontend = db_fields - fe_fields      (line 62)
  extra_in_frontend   = fe_fields - db_fields      (line 69)
  matched             = db_fields & fe_fields      (line 76)

and prints `len(matched)/len(db_fields)` (line 77).  Python string sets
are embedded as `Finset String`; the dict tables as association lists of
`String × Finset String` looked up with `List.lookup`.
-/

/-- Result of reconciling a reference field set against an observed one.
`missing`, `extra`, `matched` come from lines 62, 69, 76 of
`verify_field_mapping.py`; `coverage` is the fraction the spec derives
from the `len(matched)/len(db_fields)` report of line 77. -/
structure ReconciliationResult where
  missing : Finset String
  extra : Finset String
  matched : Finset String
  coverage : ℚ
deriving DecidableEq

/-- The loop body of `verify_field_mapping.py` (lines 62, 69, 76):
set difference, reverse set difference and intersection of the two
Python sets.  The `coverage` component is Modelled from the spec: the
script only prints the fraction `len(matched)/len(db_fields)` textually
(line 77) and never hits an empty reference table, so the edge-case rule
`coverage = 1.0` when the reference set is empty is taken from the
spec's edge case policy. -/
def reconcile (reference observed : Finset String) : ReconciliationResult :=
  { missing := reference \ observed
    extra := observed \ reference
    matched := reference ∩ observed
    coverage :=
      if reference.card = 0 then 1
      else ((reference ∩ observed).card : ℚ) / (reference.card : ℚ) }

/-- `DB_FIELDS` table of `verify_field_mapping.py`, lines 6-25. -/
def DB_FIELDS : List (String × Finset String) :=
  [("10-K", {"auditor_opinion", "business_segments", "growth_drivers",
             "management_outlook", "market_impact_10k", "risk_summary",
             "strategic_adjustments", "three_year_financials"}),
   ("10-Q", {"beat_miss_analysis", "cost_structure", "expectations_comparison",
             "growth_decline_analysis", "guidance_update", "management_tone_analysis",
             "market_impact_10q"}),
   ("8-K", {"event_nature_analysis", "event_timeline", "item_type",
            "items", "key_considerations", "market_impact_analysis"}),
   ("S-1", {"company_overview", "competitive_moat_analysis", "financial_summary",
            "growth_path_analysis", "ipo_details", "risk_categories"})]

/-- `FRONTEND_FIELDS` table of `verify_field_mapping.py`, lines 28-50. -/
def FRONTEND_FIELDS : List (String × Finset String) :=
  [("10-K", {"auditor_opinion", "business_segments", "growth_drivers",
             "management_outlook", "risk_summary", "strategic_adjustments",
             "three_year_financials"}),
   ("10-Q", {"beat_miss_analysis", "cost_structure", "expectations_comparison",
             "growth_decline_analysis", "guidance_update", "management_tone_analysis"}),
   ("8-K", {"event_nature_analysis", "event_timeline", "item_type",
            "items", "key_considerations", "market_impact_analysis",
            "event_summary", "event_type"}),
   ("S-1", {"company_overview", "competitive_moat_analysis", "financial_summary",
            "growth_path_analysis", "ipo_details", "risk_categories",
            "business_description"})]

/-- The literal list the main loop iterates over (line 54). -/
def filingTypes : List String := ["10-K", "10-Q", "8-K", "S-1"]

/-- Dict subscript `TABLE[filing_type]` (lines 58-59): `none` models a
Python `KeyError`. -/
def lookupFields (table : List (String × Finset String)) (k : String) :
    Option (Finset String) :=
  table.lookup k

/-- Key ordering used to sort batch results by category name. -/
def keyLE (a b : String × ReconciliationResult) : Prop := a.1 ≤ b.1

instance : DecidableRel keyLE := fun a b =>
  inferInstanceAs (Decidable (a.1 ≤ b.1))

instance : IsTotal (String × ReconciliationResult) keyLE :=
  ⟨fun a b => le_total a.1 b.1⟩

instance : IsTrans (String × ReconciliationResult) keyLE :=
  ⟨fun _ _ _ hab hbc => le_trans hab hbc⟩

/-- Modelled from the spec: the batch operation `reconcileAll` is absent
from the source (the script inlines a loop over `filingTypes`); the
spec's batch contract applies `reconcile` independently per category and
iterates categories in a deterministic order sorted by category name. -/
def reconcileAll (perCategory : List (String × Finset String × Finset String)) :
    List (String × ReconciliationResult) :=
  (perCategory.map fun x => (x.1, reconcile x.2.1 x.2.2)).insertionSort keyLE

/-- Modelled from the spec: a dynamic Python-like value, used to state
the input-validation contract; the source performs no explicit check
(Python raises a dynamic type error), the spec names the failure
`InvalidInputError`. -/
inductive PyValue where
  | null
  | str (s : String)
  | strSet (s : Finset String)
  | intVal (n : Int)
deriving DecidableEq

/-- Modelled from the spec: validates that an argument is a collection
of strings, failing fast with `InvalidInputError` otherwise. -/
def checkFieldSet : PyValue → Except String (Finset String)
  | .strSet s => .ok s
  | _ => .error "InvalidInputError"

/-- Modelled from the spec: `reconcile` guarded by input validation of
both arguments; fails fast, no silent coercion. -/
def reconcileChecked (r o : PyValue) : Except String ReconciliationResult := do
  let R ← checkFieldSet r
  let O ← checkFieldSet o
  pure (reconcile R O)

/-- C1: for every reference FieldSet R and observed FieldSet O,
`reconcile R O` returns `missing = R − O`, `extra = O − R` and
`matched = R ∩ O`. -/
theorem reconcile_components (R O : Finset String) :
    (reconcile R O).missing = R \ O ∧
    (reconcile R O).extra = O \ R ∧
    (reconcile R O).matched = R ∩ O :=
  ⟨rfl, rfl, rfl⟩

/-- C3: the matched component of `reconcile` is symmetric in its two
arguments. -/
theorem reconcile_matched_symm (R O : Finset String) :
    (reconcile R O).matched = (reconcile O R).matched :=
  Finset.inter_comm R O

/-- C5: the missing set and the matched set returned by `reconcile` are
disjoint. -/
theorem reconcile_missing_matched_disjoint (R O : Finset String) :
    (reconcile R O).missing ∩ (reconcile R O).matched = ∅ := by
  simp [reconcile, Finset.sdiff_inter_self_left, ← Finset.disjoint_iff_inter_eq_empty]
  exact Finset.disjoint_sdiff_inter R O

/-- C2: coverage equals `|matched| / |R|` and lies in `[0, 1]` whenever
`|R| > 0`; it is exactly `1` when `|R| = 0`; and `reconcile ∅ O` has
empty missing set and coverage `1` for every O. -/
theorem reconcile_coverage_spec (R O : Finset String) :
    (R.card ≠ 0 →
        (reconcile R O).coverage = ((reconcile R O).matched.card : ℚ) / (R.card : ℚ) ∧
        0 ≤ (reconcile R O).coverage ∧ (reconcile R O).coverage ≤ 1) ∧
    (R.card = 0 → (reconcile R O).coverage = 1) ∧
    (reconcile ∅ O).missing = ∅ ∧ (reconcile ∅ O).coverage = 1 := by
  refine ⟨fun h => ?_, fun h => ?_, ?_, ?_⟩
  · simp only [reconcile, if_neg h]
    refine ⟨trivial, by positivity, ?_⟩
    rw [div_le_one (by exact_mod_cast Nat.pos_of_ne_zero h)]
    exact_mod_cast Finset.card_le_card Finset.inter_subset_left
  · simp [reconcile, h]
  · simp [reconcile]
  · simp [reconcile]

/-- Witness for C2 at `R = O = {"a"}`. -/
theorem reconcile_coverage_spec_witness :
    (reconcile {"a"} {"a"}).coverage =
      ((reconcile {"a"} {"a"}).matched.card : ℚ) / ((({"a"} : Finset String)).card : ℚ) ∧
    0 ≤ (reconcile {"a"} {"a"}).coverage ∧ (reconcile {"a"} {"a"}).coverage ≤ 1 :=
  (reconcile_coverage_spec {"a"} {"a"}).1 (by decide)

/-- C4: comparing a field set against itself yields no discrepancy:
empty missing set, empty extra set, coverage `1`. -/
theorem reconcile_self (R : Finset String) :
    (reconcile R R).missing = ∅ ∧ (reconcile R R).extra = ∅ ∧
    (reconcile R R).coverage = 1 := by
  refine ⟨by simp [reconcile], by simp [reconcile], ?_⟩
  by_cases h : R.card = 0
  · simp [reconcile, h]
  · simp only [reconcile, if_neg h, Finset.inter_self]
    exact div_self (by exact_mod_cast h)

/-- C6: for a nonempty reference set, reconciling against an empty
observed set reports nothing extra and everything missing. -/
theorem reconcile_empty_observed (R : Finset String) (h : R.Nonempty) :
    (reconcile R ∅).extra = ∅ ∧ (reconcile R ∅).missing = R :=
  ⟨by simp [reconcile], by simp [reconcile]⟩

/-- Witness for C6 at `R = {"a"}`. -/
theorem reconcile_empty_observed_witness :
    (reconcile {"a"} ∅).extra = ∅ ∧ (reconcile {"a"} ∅).missing = {"a"} :=
  reconcile_empty_observed {"a"} ⟨"a", by decide⟩

/-- C7: `reconcileAll` iterates categories in sorted order by category
name, applies `reconcile` independently to each category, and on the
two-category example with keys "X" and "Y" the result keys iterate as
["X", "Y"]. -/
theorem reconcileAll_sorted_independent :
    (∀ l : List (String × Finset String × Finset String),
        List.Sorted (· ≤ ·) ((reconcileAll l).map Prod.fst) ∧
        ∀ p ∈ reconcileAll l, ∃ x ∈ l, p = (x.1, reconcile x.2.1 x.2.2)) ∧
    (reconcileAll [("Y", {"b"}, {"b"}), ("X", {"a"}, {"a"})]).map Prod.fst
      = ["X", "Y"] := by
  constructor
  · intro l
    constructor
    · exact (List.sorted_insertionSort keyLE _).map _ (fun a b hab => hab)
    · intro p hp
      rw [reconcileAll, List.mem_insertionSort, List.mem_map] at hp
      obtain ⟨x, hx, hxp⟩ := hp
      exact ⟨x, hx, hxp.symm⟩
  · simp only [reconcileAll, List.map_cons, List.map_nil, List.insertionSort,
      List.orderedInsert, keyLE]
    rw [if_neg]
    · rfl
    · rw [String.le_iff_toList_le]; decide

/-- Witness for C7: the independence clause instantiated on a
one-category batch. -/
theorem reconcileAll_sorted_independent_witness :
    ∃ x ∈ [("X", ({"a"} : Finset String), ({"a"} : Finset String))],
      ("X", reconcile {"a"} {"a"}) = (x.1, reconcile x.2.1 x.2.2) :=
  (reconcileAll_sorted_independent.1 [("X", {"a"}, {"a"})]).2
    ("X", reconcile {"a"} {"a"})
    (by simp [reconcileAll, List.insertionSort, List.orderedInsert])

/-- C8: `reconcileChecked` fails fast with `InvalidInputError` when an
argument is not a collection of strings (null in either position),
while empty-set arguments never raise an error. -/
theorem reconcileChecked_validation :
    reconcileChecked .null (.strSet ∅) = .error "InvalidInputError" ∧
    reconcileChecked (.strSet ∅) .null = .error "InvalidInputError" ∧
    reconcileChecked (.strSet ∅) (.strSet ∅) = .ok (reconcile ∅ ∅) :=
  ⟨rfl, rfl, rfl⟩

/-- C9: the reconcile outputs partition both inputs: missing and
matched partition R, extra and matched partition O, cards add up, and
the matched/total fraction reported at line 77 never exceeds 1. -/
theorem reconcile_partition (R O : Finset String) :
    (reconcile R O).missing ∪ (reconcile R O).matched = R ∧
    Disjoint (reconcile R O).missing (reconcile R O).matched ∧
    (reconcile R O).extra ∪ (reconcile R O).matched = O ∧
    Disjoint (reconcile R O).extra (reconcile R O).matched ∧
    (reconcile R O).matched.card + (reconcile R O).missing.card = R.card ∧
    ((reconcile R O).matched.card : ℚ) / (R.card : ℚ) ≤ 1 := by
  refine ⟨Finset.sdiff_union_inter R O, Finset.disjoint_sdiff_inter R O, ?_, ?_, ?_, ?_⟩
  · show O \ R ∪ R ∩ O = O
    rw [Finset.inter_comm]; exact Finset.sdiff_union_inter O R
  · show Disjoint (O \ R) (R ∩ O)
    rw [Finset.inter_comm]; exact Finset.disjoint_sdiff_inter O R
  · show (R ∩ O).card + (R \ O).card = R.card
    rw [Nat.add_comm]; exact Finset.card_sdiff_add_card_inter R O
  · show ((R ∩ O).card : ℚ) / (R.card : ℚ) ≤ 1
    by_cases h : R.card = 0
    · simp [h]
    · rw [div_le_one (by exact_mod_cast Nat.pos_of_ne_zero h)]
      exact_mod_cast Finset.card_le_card Finset.inter_subset_left

/-- C10: `DB_FIELDS` and `FRONTEND_FIELDS` have the same key list,
equal to the list the main loop iterates over, so every dict lookup the
loop performs succeeds (no KeyError). -/
theorem tables_total_on_loop :
    DB_FIELDS.map Prod.fst = filingTypes ∧
    FRONTEND_FIELDS.map Prod.fst = filingTypes ∧
    filingTypes.all (fun ft =>
      (lookupFields DB_FIELDS ft).isSome &&
      (lookupFields FRONTEND_FIELDS ft).isSome) = true :=
  ⟨rfl, rfl, by decide⟩
